import Mathlib

/-!
Verification of the SAS (short authentication string) device-verification
state machine of the matrix-nio client library, together with one fact about
its HTTP response layer (src/nio/responses.py).

The SAS session and verification-manager code itself is not part of the
source tree given here (only its test suite, src/tests/sas_test.py, is), so
the state machine below is modelled from the specification document, with
the repository's tests pinning the constants and guard shapes wherever the
two disagree.  Cryptographic primitives are idealized: X25519 is modelled as
modular exponentiation over a small prime (which gives a real Diffie-Hellman
commutativity property), and SHA-256 / HMAC-SHA-256 are modelled as injective
symbolic constructors, the standard collision-free idealization.
-/

/-- Modelled from the spec: an OlmDevice record (user id, device id, long-term
ed25519 signing key and curve25519 identity key), supplied by the device
directory. -/
structure OlmDevice where
  user_id : String
  device_id : String
  ed25519 : String
  curve25519 : String
deriving DecidableEq

/-- Modelled from the spec: the externally visible states of a SAS session. -/
inductive SasState where
  | created
  | started
  | accepted
  | key_received
  | mac_received
  | canceled
deriving DecidableEq

/-- Modelled from the spec: the content of an m.key.verification.start
message. -/
structure StartContent where
  transaction_id : String
  from_device : String
  method : String
  key_agreement_protocols : List String
  hashes : List String
  message_authentication_codes : List String
  short_authentication_string : List String
deriving DecidableEq

/-- Modelled from the spec: the SHA-256 commitment over the canonical JSON of
a start content concatenated with the responder's ephemeral public key,
idealized as an injective constructor (canonical JSON is injective on start
contents and SHA-256 is treated as collision free). -/
structure CommitmentHash where
  start : StartContent
  key : Nat
deriving DecidableEq

/-- Modelled from the spec: the content of an m.key.verification.accept
message. -/
structure AcceptContent where
  transaction_id : String
  key_agreement_protocol : String
  hash : String
  message_authentication_code : String
  short_authentication_string : List String
  commitment : CommitmentHash
deriving DecidableEq

/-- Modelled from the spec: the content of an m.key.verification.key message;
public keys are modelled as naturals (base64 encoding is a bijection). -/
structure KeyContent where
  transaction_id : String
  key : Nat
deriving DecidableEq

/-- Modelled from the spec: the HKDF info for MAC key derivation, i.e. the
sender and receiver user-device strings, the transaction id and the key id. -/
structure MacInfo where
  sender_user_device : String
  receiver_user_device : String
  transaction_id : String
  key_id : String
deriving DecidableEq

/-- Modelled from the spec: a wire MAC value.  An honest HMAC-SHA-256 value is
determined by the shared secret, the HKDF info and the message; it is
idealized as the injective constructor hmac.  raw represents an arbitrary
attacker-substituted string such as FAKEKEYS. -/
inductive Mac where
  | hmac (key : Nat) (info : MacInfo) (message : String)
  | raw (value : String)
deriving DecidableEq

/-- Modelled from the spec: the content of an m.key.verification.mac message:
a map from key id to MAC, and a MAC over the sorted comma-joined key ids. -/
structure MacContent where
  transaction_id : String
  mac : List (String × Mac)
  keys : Mac
deriving DecidableEq

/-- Modelled from the spec: the content of an m.key.verification.cancel
message. -/
structure CancelContent where
  transaction_id : String
  code : String
  reason : String
deriving DecidableEq

/-- Modelled from the spec: a SAS session.  Times are in seconds. -/
structure Sas where
  own_user : String
  own_device : String
  own_fp_key : String
  other_olm_device : OlmDevice
  transaction_id : String
  we_started_it : Bool
  private_key : Nat
  state : SasState
  their_pubkey : Option Nat
  commitment : Option CommitmentHash
  received_start : Option StartContent
  sas_accepted : Bool
  verified_devices : List String
  cancel_code : Option String
  cancel_reason : Option String
  creation_time : Int
  last_event_time : Int
deriving DecidableEq

/-- Modelled from the spec: the X25519 group is idealized as modular
exponentiation over a small prime, which retains the Diffie-Hellman
commutativity the protocol relies on. -/
def dhPrime : Nat := 251

/-- Generator of the modelled Diffie-Hellman group. -/
def dhGen : Nat := 6

/-- Modelled from the spec: the X25519 shared-secret computation
agree(private, peer_public). -/
def dh (priv peerPub : Nat) : Nat := peerPub ^ priv % dhPrime

/-- The ephemeral public key of a session, derived from its private scalar. -/
def Sas.pubkey (s : Sas) : Nat := dhGen ^ s.private_key % dhPrime

/-- A simple executable mixing hash on character lists, standing in for the
byte-level hashing inside HKDF.  Only determinism matters for the claims. -/
def strHash : List Char → Nat
  | [] => 7
  | c :: cs => (strHash cs * 31 + c.toNat) % 1000003

/-- Modelled from the spec: the contents of the HKDF info for SAS byte
derivation, with the initiator side listed first. -/
structure SasInfoData where
  initiator_user : String
  initiator_device : String
  initiator_key : Nat
  responder_user : String
  responder_device : String
  responder_key : Nat
  transaction_id : String
deriving DecidableEq

/-- Modelled from the spec: HKDF-SHA-256 producing the 6 SAS bytes from the
shared secret and the info; idealized as a deterministic executable mix. -/
def hkdfSas (shared : Nat) (info : SasInfoData) : List Nat :=
  (List.range 6).map fun i =>
    (shared * 2654435761 + strHash info.initiator_user.data * 3 +
     strHash info.initiator_device.data * 5 + info.initiator_key * 7 +
     strHash info.responder_user.data * 11 +
     strHash info.responder_device.data * 13 +
     info.responder_key * 17 + strHash info.transaction_id.data * 19 +
     i * 23) % 256

/-- The session's shared secret, available once the peer's public key is. -/
def Sas.shared_secret (s : Sas) : Option Nat :=
  s.their_pubkey.map fun pk => dh s.private_key pk

/-- Modelled from the spec: the SAS HKDF info, whose initiator/responder
ordering is determined by we_started_it. -/
def Sas.sas_info (s : Sas) : SasInfoData :=
  let theirs := s.their_pubkey.getD 0
  if s.we_started_it then
    ⟨s.own_user, s.own_device, s.pubkey,
     s.other_olm_device.user_id, s.other_olm_device.device_id, theirs,
     s.transaction_id⟩
  else
    ⟨s.other_olm_device.user_id, s.other_olm_device.device_id, theirs,
     s.own_user, s.own_device, s.pubkey, s.transaction_id⟩

/-- The 6 SAS bytes of a session, once the peer's key is known. -/
def Sas.sas_bytes (s : Sas) : Option (List Nat) :=
  s.shared_secret.map fun sh => hkdfSas sh s.sas_info

/-- The first 5 SAS bytes read as a big-endian 40-bit integer. -/
def bytesTo40 : List Nat → Nat
  | b0 :: b1 :: b2 :: b3 :: b4 :: _ =>
      (((b0 * 256 + b1) * 256 + b2) * 256 + b3) * 256 + b4
  | _ => 0

/-- Modelled from the spec: the emoji rendering splits the 40 bits into 7
six-bit groups, discarding the 2 low bits; each group indexes the fixed
64-entry emoji table, so we identify the rendering with its index list. -/
def emojiIndices (n : Nat) : List Nat :=
  (List.range 7).map fun k => n / 2 ^ (34 - 6 * k) % 64

/-- Modelled from the spec: the decimal rendering splits the 40 bits into
three 13-bit groups and adds 1000 to each. -/
def decimalTriple (n : Nat) : Nat × Nat × Nat :=
  (n / 2 ^ 27 % 8192 + 1000, n / 2 ^ 14 % 8192 + 1000, n / 2 % 8192 + 1000)

/-- get_emoji: the emoji rendering of the session's SAS bytes. -/
def Sas.get_emoji (s : Sas) : Option (List Nat) :=
  s.sas_bytes.map fun b => emojiIndices (bytesTo40 b)

/-- get_decimals: the decimal rendering of the session's SAS bytes. -/
def Sas.get_decimals (s : Sas) : Option (Nat × Nat × Nat) :=
  s.sas_bytes.map fun b => decimalTriple (bytesTo40 b)

/-- A session is canceled when its state is the canceled sink. -/
def Sas.canceled (s : Sas) : Prop := s.state = SasState.canceled

instance (s : Sas) : Decidable s.canceled :=
  inferInstanceAs (Decidable (s.state = SasState.canceled))

/-- Modelled from the spec: the session is verified once the peer's mac event
validated (its device id was recorded in verified_devices and the state
advanced to mac_received) and the local user confirmed the SAS. -/
def Sas.verified (s : Sas) : Prop :=
  s.state = SasState.mac_received ∧ s.sas_accepted = true ∧
    s.other_olm_device.device_id ∈ s.verified_devices

instance (s : Sas) : Decidable s.verified :=
  inferInstanceAs (Decidable (s.state = SasState.mac_received ∧
    s.sas_accepted = true ∧
    s.other_olm_device.device_id ∈ s.verified_devices))

/-- Transition to the canceled sink, recording the cancellation code. -/
def Sas.cancelWith (s : Sas) (code reason : String) : Sas :=
  { s with state := SasState.canceled,
           cancel_code := some code, cancel_reason := some reason }

/-- Modelled from the spec: creating an initiator-side session. -/
def Sas.create (own_user own_device own_fp_key : String) (other : OlmDevice)
    (priv : Nat) (txid : String) (now : Int) : Sas :=
  { own_user := own_user, own_device := own_device,
    own_fp_key := own_fp_key, other_olm_device := other,
    transaction_id := txid, we_started_it := true, private_key := priv,
    state := SasState.created, their_pubkey := none, commitment := none,
    received_start := none, sas_accepted := false, verified_devices := [],
    cancel_code := none, cancel_reason := none,
    creation_time := now, last_event_time := now }

/-- The start payload a session advertises: method m.sas.v1 and the supported
negotiation lists. -/
def Sas.start_content (s : Sas) : StartContent :=
  { transaction_id := s.transaction_id, from_device := s.own_device,
    method := "m.sas.v1",
    key_agreement_protocols := ["curve25519"],
    hashes := ["sha256"],
    message_authentication_codes := ["hkdf-hmac-sha256"],
    short_authentication_string := ["emoji", "decimal"] }

/-- Modelled from the spec: building a responder-side session from a received
start event.  If no mutually supported option exists (in particular if the
method is not m.sas.v1) the session is canceled immediately with
m.unknown_method. -/
def Sas.from_start (own_user own_device own_fp_key : String)
    (other : OlmDevice) (priv : Nat) (event : StartContent) (now : Int) :
    Sas :=
  let s : Sas :=
    { own_user := own_user, own_device := own_device,
      own_fp_key := own_fp_key, other_olm_device := other,
      transaction_id := event.transaction_id, we_started_it := false,
      private_key := priv, state := SasState.started, their_pubkey := none,
      commitment := none, received_start := some event,
      sas_accepted := false, verified_devices := [],
      cancel_code := none, cancel_reason := none,
      creation_time := now, last_event_time := now }
  if event.method = "m.sas.v1" ∧
     "curve25519" ∈ event.key_agreement_protocols ∧
     "sha256" ∈ event.hashes ∧
     "hkdf-hmac-sha256" ∈ event.message_authentication_codes ∧
     ("emoji" ∈ event.short_authentication_string ∨
      "decimal" ∈ event.short_authentication_string)
  then s
  else s.cancelWith "m.unknown_method" "Unknown method"

/-- start_verification: only the initiator may emit the start payload, and
never after cancellation (a LocalProtocolError, modelled as none). -/
def Sas.start_verification (s : Sas) : Option StartContent :=
  if s.canceled then none
  else if s.we_started_it then some s.start_content
  else none

/-- accept_verification: the responder's accept payload, carrying the
commitment binding its ephemeral public key to the received start content. -/
def Sas.accept_verification (s : Sas) : Option AcceptContent :=
  if s.we_started_it then none
  else if s.canceled then none
  else if s.state = SasState.started then
    match s.received_start with
    | none => none
    | some sc =>
        some { transaction_id := s.transaction_id,
               key_agreement_protocol := "curve25519", hash := "sha256",
               message_authentication_code := "hkdf-hmac-sha256",
               short_authentication_string := ["emoji", "decimal"],
               commitment := ⟨sc, s.pubkey⟩ }
  else none

/-- receive_accept: the initiator validates the chosen options and records
the peer's commitment; an accept in any other state cancels with
m.unexpected_message. -/
def Sas.receive_accept (now : Int) (s : Sas) (e : AcceptContent) : Sas :=
  if s.canceled then s
  else if s.state ≠ SasState.created then
    s.cancelWith "m.unexpected_message" "Unexpected message"
  else if e.key_agreement_protocol = "curve25519" ∧ e.hash = "sha256" ∧
          e.message_authentication_code = "hkdf-hmac-sha256" then
    { s with commitment := some e.commitment, state := SasState.accepted,
             last_event_time := now }
  else s.cancelWith "m.unknown_method" "Unknown method"

/-- receive_key: record the peer's ephemeral public key.  On the initiator
side the stored commitment is opened against the received key and a mismatch
cancels with m.key_mismatch. -/
def Sas.receive_key (now : Int) (s : Sas) (e : KeyContent) : Sas :=
  if s.canceled then s
  else if s.we_started_it then
    if s.state ≠ SasState.accepted then
      s.cancelWith "m.unexpected_message" "Unexpected message"
    else if s.commitment = some ⟨s.start_content, e.key⟩ then
      { s with their_pubkey := some e.key, state := SasState.key_received,
               last_event_time := now }
    else s.cancelWith "m.key_mismatch" "Key mismatch"
  else
    if s.state ≠ SasState.started then
      s.cancelWith "m.unexpected_message" "Unexpected message"
    else
      { s with their_pubkey := some e.key, state := SasState.key_received,
               last_event_time := now }

/-- share_key: emit the session's own key payload (never after cancel). -/
def Sas.share_key (s : Sas) : Option KeyContent :=
  if s.canceled then none
  else some { transaction_id := s.transaction_id, key := s.pubkey }

/-- set_their_pubkey: directly record the peer's ephemeral public key. -/
def Sas.set_their_pubkey (s : Sas) (k : Nat) : Sas :=
  { s with their_pubkey := some k }

/-- accept_sas: the local user confirms the short authentication string;
requires the peer's key and a key_received or mac_received state. -/
def Sas.accept_sas (s : Sas) : Option Sas :=
  if s.canceled then none
  else if s.their_pubkey = none then none
  else if s.state = SasState.key_received ∨ s.state = SasState.mac_received
  then some { s with sas_accepted := true }
  else none

/-- The MAC HKDF info used when this session produces MACs (it is the
sender). -/
def Sas.mac_info_out (s : Sas) (kid : String) : MacInfo :=
  ⟨s.own_user ++ s.own_device,
   s.other_olm_device.user_id ++ s.other_olm_device.device_id,
   s.transaction_id, kid⟩

/-- The MAC HKDF info used when this session verifies received MACs (the
peer is the sender). -/
def Sas.mac_info_in (s : Sas) (kid : String) : MacInfo :=
  ⟨s.other_olm_device.user_id ++ s.other_olm_device.device_id,
   s.own_user ++ s.own_device, s.transaction_id, kid⟩

/-- Insert a string into a sorted list of strings. -/
def insertSorted (x : String) : List String → List String
  | [] => [x]
  | y :: ys => if x ≤ y then x :: y :: ys else y :: insertSorted x ys

/-- Sort a list of strings (insertion sort). -/
def sortStrings (l : List String) : List String :=
  l.foldr insertSorted []

/-- Join a list of strings with commas. -/
def joinComma : List String → String
  | [] => ""
  | [x] => x
  | x :: xs => x ++ "," ++ joinComma xs

/-- get_mac: once the user accepted the SAS, emit the mac payload: an HMAC of
the own ed25519 fingerprint key under the key id ed25519:own_device, and the
keys HMAC over the sorted comma-joined key-id list. -/
def Sas.get_mac (s : Sas) : Option MacContent :=
  if s.canceled then none
  else if s.sas_accepted = false then none
  else match s.shared_secret with
  | none => none
  | some sh =>
      let kid := "ed25519:" ++ s.own_device
      some { transaction_id := s.transaction_id,
             mac := [(kid, Mac.hmac sh (s.mac_info_out kid) s.own_fp_key)],
             keys := Mac.hmac sh (s.mac_info_out "KEY_IDS")
                       (joinComma (sortStrings [kid])) }

/-- receive_mac: verify the keys HMAC over the sorted key-id list, then each
entry whose key id names the peer device; any mismatch cancels with
m.key_mismatch, success records the peer device and advances to
mac_received. -/
def Sas.receive_mac (now : Int) (s : Sas) (e : MacContent) : Sas :=
  if s.canceled then s
  else if s.state ≠ SasState.key_received then
    s.cancelWith "m.unexpected_message" "Unexpected message"
  else match s.shared_secret with
  | none => s.cancelWith "m.unexpected_message" "Unexpected message"
  | some sh =>
      if e.keys = Mac.hmac sh (s.mac_info_in "KEY_IDS")
                    (joinComma (sortStrings (e.mac.map Prod.fst))) then
        if ∀ p ∈ e.mac,
            p.1 = "ed25519:" ++ s.other_olm_device.device_id →
            p.2 = Mac.hmac sh (s.mac_info_in p.1)
                    s.other_olm_device.ed25519 then
          { s with state := SasState.mac_received,
                   verified_devices :=
                     if ("ed25519:" ++ s.other_olm_device.device_id) ∈
                        e.mac.map Prod.fst
                     then s.other_olm_device.device_id :: s.verified_devices
                     else s.verified_devices,
                   last_event_time := now }
        else s.cancelWith "m.key_mismatch" "Key mismatch"
      else s.cancelWith "m.key_mismatch" "Key mismatch"

/-- cancel: the local user aborts; the cancellation payload is retained. -/
def Sas.cancel (s : Sas) : Sas :=
  s.cancelWith "m.user" "Canceled by user"

/-- get_cancelation: replay the retained cancellation payload; a
LocalProtocolError (none) when the session is not canceled. -/
def Sas.get_cancelation (s : Sas) : Option CancelContent :=
  if s.canceled then
    some ⟨s.transaction_id, s.cancel_code.getD "", s.cancel_reason.getD ""⟩
  else none

/-- Modelled from the spec: the per-session maximum age.  The specification
text states 10 minutes, but the repository test test_sas_timeout
(src/tests/sas_test.py:370) requires a session whose creation_time lies 5
minutes in the past to be timed out, so the value is 5 minutes. -/
def maxAge : Int := 300

/-- Modelled from the spec: the per-event maximum age of 1 minute, pinned by
test_sas_event_timeout (src/tests/sas_test.py:388). -/
def maxEventTimeout : Int := 60

/-- Modelled from the spec: reading timed_out checks both deadlines and, when
one is exceeded on a live session, cancels it with m.timeout; the pair is
(the reported flag, the possibly updated session). -/
def Sas.timed_out_check (now : Int) (s : Sas) : Bool × Sas :=
  if s.verified ∨ s.canceled then (false, s)
  else if maxAge ≤ now - s.creation_time ∨
          maxEventTimeout ≤ now - s.last_event_time then
    (true, s.cancelWith "m.timeout" "Timed out")
  else (false, s)

/-- A session is terminal when it is canceled (timeout included) or
verified. -/
def Sas.terminal (s : Sas) : Prop := s.canceled ∨ s.verified

instance (s : Sas) : Decidable s.terminal :=
  inferInstanceAs (Decidable (s.canceled ∨ s.verified))

/-- Modelled from the spec: an outgoing to-device envelope wrapping a cancel
payload for the transport. -/
structure OutMessage where
  recipient : String
  recipient_device : String
  event_type : String
  content : CancelContent
deriving DecidableEq

/-- Modelled from the spec: the verification manager (the olm machine's
verification surface): sessions keyed by transaction id, a FIFO of outgoing
envelopes and the set of users needing a key query. -/
structure Machine where
  user_id : String
  device_id : String
  fp_key : String
  device_store : List OlmDevice
  key_verifications : List (String × Sas)
  outgoing_to_device_messages : List OutMessage
  users_for_key_query : List String
deriving DecidableEq

/-- Look a device up in the manager's device store. -/
def Machine.lookup_device (m : Machine) (user device : String) :
    Option OlmDevice :=
  m.device_store.find? fun d => d.user_id == user && d.device_id == device

/-- The session stored under a transaction id, if any. -/
def Machine.get_session (m : Machine) (txid : String) : Option Sas :=
  (m.key_verifications.find? fun p => p.1 == txid).map Prod.snd

/-- Replace the session stored under a transaction id. -/
def Machine.update_session (m : Machine) (txid : String) (s : Sas) :
    Machine :=
  { m with key_verifications :=
      m.key_verifications.map fun p => if p.1 == txid then (p.1, s) else p }

/-- create_sas: construct an initiator session, install it under its
transaction id and return the start payload for the transport. -/
def Machine.create_sas (m : Machine) (other : OlmDevice) (priv : Nat)
    (txid : String) (now : Int) : Machine × StartContent :=
  let s := Sas.create m.user_id m.device_id m.fp_key other priv txid now
  ({ m with key_verifications := (txid, s) :: m.key_verifications },
   s.start_content)

/-- Modelled from the spec: receiving a start event.  An unknown device
queues a key query and drops the event; a session that from_start canceled
(unsupported method) is not installed and its cancel payload is enqueued;
otherwise the responder session is installed. -/
def Machine.handle_start (m : Machine) (sender : String) (e : StartContent)
    (priv : Nat) (now : Int) : Machine :=
  match m.lookup_device sender e.from_device with
  | none => { m with users_for_key_query := sender :: m.users_for_key_query }
  | some dev =>
      let s := Sas.from_start m.user_id m.device_id m.fp_key dev priv e now
      if s.canceled then
        match s.get_cancelation with
        | some c =>
            { m with outgoing_to_device_messages :=
                m.outgoing_to_device_messages ++
                  [⟨sender, dev.device_id, "m.key.verification.cancel", c⟩] }
        | none => m
      else
        { m with key_verifications := (e.transaction_id, s) ::
            m.key_verifications }

/-- Modelled from the spec: receiving an accept event.  Unknown transaction
ids are ignored; a sender other than the session's peer cancels with
m.user_error; otherwise the session processes the accept. -/
def Machine.handle_accept (m : Machine) (sender : String) (e : AcceptContent)
    (now : Int) : Machine :=
  match m.get_session e.transaction_id with
  | none => m
  | some s =>
      if sender ≠ s.other_olm_device.user_id then
        m.update_session e.transaction_id
          (s.cancelWith "m.user_error" "User mismatch")
      else m.update_session e.transaction_id (s.receive_accept now e)

/-- Modelled from the spec: the grace period of 20 minutes before a terminal
session is garbage collected. -/
def sessionGcAge : Int := 1200

/-- Modelled from the spec: the GC sweep.  Live sessions past their deadline
are marked timed out (collected on a later sweep); terminal sessions older
than the grace period are removed from the table. -/
def Machine.clear_verifications (m : Machine) (now : Int) : Machine :=
  let marked := m.key_verifications.map fun p =>
    (p.1, (Sas.timed_out_check now p.2).2)
  { m with key_verifications :=
      marked.filter fun p =>
        ¬ (p.2.terminal ∧ sessionGcAge < now - p.2.creation_time) }

/-- The legal run of the key-exchange phase between an initiator (alice) and
a responder (bob), as in test_sas_share_keys: start, accept, alice's key,
bob's key; returns the two sessions after both keys are exchanged. -/
def keys_run (aU aD aF aCurve bU bD bF bCurve txid : String)
    (aPriv bPriv : Nat) : Option (Sas × Sas) :=
  let bobDev : OlmDevice := ⟨bU, bD, bF, bCurve⟩
  let aliceDev : OlmDevice := ⟨aU, aD, aF, aCurve⟩
  let alice := Sas.create aU aD aF bobDev aPriv txid 0
  alice.start_verification.bind fun sc =>
  let bob := Sas.from_start bU bD bF aliceDev bPriv sc 0
  bob.accept_verification.bind fun ac =>
  let alice := alice.receive_accept 0 ac
  alice.share_key.bind fun akey =>
  let bob := bob.receive_key 0 akey
  bob.share_key.bind fun bkey =>
  let alice := alice.receive_key 0 bkey
  some (alice, bob)

/-- The sessions observed along the mac phase of a full happy-path run. -/
structure RunResult where
  alice_final : Sas
  bob_after_mac : Sas
  bob_final : Sas

/-- The full happy-path run, as in test_sas_mac and test_client_full_sas:
after the key exchange, alice confirms the SAS and sends her mac, bob
receives it, bob confirms the SAS and sends his mac, alice receives it. -/
def full_run (aU aD aF aCurve bU bD bF bCurve txid : String)
    (aPriv bPriv : Nat) : Option RunResult :=
  (keys_run aU aD aF aCurve bU bD bF bCurve txid aPriv bPriv).bind fun p =>
  p.1.accept_sas.bind fun alice =>
  alice.get_mac.bind fun amac =>
  let bob := p.2.receive_mac 0 amac
  bob.accept_sas.bind fun bobF =>
  bobF.get_mac.bind fun bmac =>
  let aliceF := alice.receive_mac 0 bmac
  some ⟨aliceF, bob, bobF⟩

/-- The run of test_sas_invalid_commitment: a legal run up to the point where
the initiator expects the responder's key, at which point a key event
carrying the initiator's own public key is delivered instead. -/
def tampered_key_run (aU aD aF aCurve bU bD bF bCurve txid : String)
    (aPriv bPriv : Nat) : Option Sas :=
  let bobDev : OlmDevice := ⟨bU, bD, bF, bCurve⟩
  let aliceDev : OlmDevice := ⟨aU, aD, aF, aCurve⟩
  let alice := Sas.create aU aD aF bobDev aPriv txid 0
  alice.start_verification.bind fun sc =>
  let bob := Sas.from_start bU bD bF aliceDev bPriv sc 0
  bob.accept_verification.bind fun ac =>
  let alice := alice.receive_accept 0 ac
  alice.share_key.bind fun akey =>
  let _ := bob.receive_key 0 akey
  some (alice.receive_key 0 ⟨txid, alice.pubkey⟩)

/-- The run of test_client_accept_cancel: the manager creates an initiator
session, the responder's accept is delivered twice, and the session is read
back after each delivery. -/
def duplicate_accept_run (aU aD aF aCurve bU bD bF bCurve txid : String)
    (aPriv bPriv : Nat) : Option (Sas × Sas) :=
  let bobDev : OlmDevice := ⟨bU, bD, bF, bCurve⟩
  let aliceDev : OlmDevice := ⟨aU, aD, aF, aCurve⟩
  let m0 : Machine := ⟨aU, aD, aF, [bobDev], [], [], []⟩
  let r := m0.create_sas bobDev aPriv txid 0
  let bob := Sas.from_start bU bD bF aliceDev bPriv r.2 0
  bob.accept_verification.bind fun ac =>
  let m2 := r.1.handle_accept bU ac 0
  let m3 := m2.handle_accept bU ac 0
  (m2.get_session txid).bind fun s2 =>
  (m3.get_session txid).map fun s3 => (s2, s3)

/-- The concrete error-response classes of src/nio/responses.py that matter
here; the embedding tags each constructed error object with its class. -/
inductive ErrorKind where
  | roomTypingError
  | roomReadMarkersError
deriving DecidableEq

/-- An error response carrying a room id (_ErrorWithRoomId and its
subclasses in src/nio/responses.py), tagged with the concrete class. -/
structure ErrorWithRoomId where
  kind : ErrorKind
  message : String
  status_code : Option String
  retry_after_ms : Option Nat
  soft_logout : Bool
  room_id : String
deriving DecidableEq

/-- The parsed JSON dictionary handed to from_dict; the error schema
requires the errcode and error fields. -/
structure ErrorDict where
  errcode : Option String
  error : Option String
  retry_after_ms : Option Nat
  soft_logout : Option Bool
deriving DecidableEq

/-- _ErrorWithRoomId.from_dict (src/nio/responses.py:344): on schema failure
return cls with the message unknown error and defaults, otherwise cls with
the parsed fields and the room id. -/
def errorWithRoomIdFromDict (kind : ErrorKind) (d : ErrorDict)
    (room_id : String) : ErrorWithRoomId :=
  match d.errcode, d.error with
  | some code, some msg =>
      ⟨kind, msg, some code, d.retry_after_ms, d.soft_logout.getD false,
       room_id⟩
  | _, _ => ⟨kind, "unknown error", none, none, false, ""⟩

/-- RoomTypingError.from_dict, i.e. _ErrorWithRoomId.from_dict with
cls = RoomTypingError (src/nio/responses.py:400). -/
def RoomTypingError.from_dict (d : ErrorDict) (room_id : String) :
    ErrorWithRoomId :=
  errorWithRoomIdFromDict ErrorKind.roomTypingError d room_id

/-- RoomReadMarkersResponse.create_error (src/nio/responses.py:983-985):
it calls RoomTypingError.from_dict. -/
def RoomReadMarkersResponse.create_error (d : ErrorDict) (room_id : String) :
    ErrorWithRoomId :=
  RoomTypingError.from_dict d room_id

/-- Commutativity of the modelled Diffie-Hellman agreement: agreeing with
one's own scalar against the peer's public point yields the same shared
secret on both sides. -/
theorem dh_comm (a b : Nat) :
    dh a (dhGen ^ b % dhPrime) = dh b (dhGen ^ a % dhPrime) := by
  unfold dh
  rw [← Nat.pow_mod, ← Nat.pow_mod, ← pow_mul, ← pow_mul, Nat.mul_comm]

/-- Claim C10: for every input dictionary and room id,
RoomReadMarkersResponse.create_error constructs a RoomTypingError, not a
RoomReadMarkersError. -/
theorem roomReadMarkers_createError_builds_roomTypingError
    (d : ErrorDict) (room_id : String) :
    (RoomReadMarkersResponse.create_error d room_id).kind =
      ErrorKind.roomTypingError ∧
    (RoomReadMarkersResponse.create_error d room_id).kind ≠
      ErrorKind.roomReadMarkersError := by
  unfold RoomReadMarkersResponse.create_error RoomTypingError.from_dict
    errorWithRoomIdFromDict
  rcases d with ⟨(_ | _), (_ | _), _, _⟩ <;> simp

/-- Claim C5: after cancel() every mutating operation fails with
LocalProtocolError (modelled as none), while get_cancelation, a pure
projection of the session and hence idempotent, returns on every call the
payload with code m.user and reason Canceled by user. -/
theorem cancel_blocks_mutations_and_cancelation_payload (s : Sas) :
    (s.cancel).start_verification = none ∧
    (s.cancel).accept_verification = none ∧
    (s.cancel).share_key = none ∧
    (s.cancel).accept_sas = none ∧
    (s.cancel).get_mac = none ∧
    (s.cancel).get_cancelation =
      some ⟨s.transaction_id, "m.user", "Canceled by user"⟩ := by
  unfold Sas.cancel Sas.cancelWith Sas.start_verification
    Sas.accept_verification Sas.share_key Sas.accept_sas Sas.get_mac
    Sas.get_cancelation Sas.canceled
  simp

/-- A concrete fresh session used to instantiate timing facts: six minutes
old, with a fresh last event time. -/
def staleSession : Sas :=
  { own_user := "@alice:example.org", own_device := "JLAFKJWSCS",
    own_fp_key := "alice_ed25519",
    other_olm_device := ⟨"@bob:example.org", "JLAFKJWSRS", "bob_ed25519",
      "bob_curve25519"⟩,
    transaction_id := "tx1", we_started_it := true, private_key := 3,
    state := SasState.created, their_pubkey := none, commitment := none,
    received_start := none, sas_accepted := false, verified_devices := [],
    cancel_code := none, cancel_reason := none,
    creation_time := -360, last_event_time := 0 }

/-- Claim C6 counterexample: a session whose creation_time lies 6 minutes in the
past (well under the claimed 10-minute SESSION_MAX_AGE) already reads
timed_out = true and is canceled, refuting the claim that only an age above
10 minutes flips the flags. -/
theorem stale_session_timed_out_at_six_minutes :
    (Sas.timed_out_check 0 staleSession).1 = true ∧
    (Sas.timed_out_check 0 staleSession).2.canceled := by
  decide

/-- Claim C6 amended: with a fresh last event time, a session whose creation_time
lies d seconds in the past reads timed_out = true and becomes canceled
precisely when d reaches SESSION_MAX_AGE = 5 minutes (the value the
repository's test pins, not the 10 minutes the specification text states);
in particular a 1-minute-old session is not timed out. -/
theorem session_times_out_at_five_minutes (now d : Int) (s : Sas)
    (hc : ¬ s.canceled) (hv : ¬ s.verified) (hl : s.last_event_time = now)
    (hcr : s.creation_time = now - d) :
    (Sas.timed_out_check now s).1 = decide (300 ≤ d) ∧
    ((Sas.timed_out_check now s).2.canceled ↔ 300 ≤ d) := by
  unfold Sas.timed_out_check
  rw [if_neg (fun h => h.elim hv hc)]
  by_cases hd : (300 : Int) ≤ d
  · rw [if_pos (by rw [hcr]; simp only [maxAge]; left; omega)]
    simp [hd, Sas.cancelWith, Sas.canceled]
  · rw [if_neg (by rw [hcr, hl]; simp only [maxAge, maxEventTimeout]; omega)]
    simp [hd]
    exact hc

/-- Witness for the amended C6 statement at a concrete six-minute-old
session. -/
theorem session_times_out_at_five_minutes_witness :
    (Sas.timed_out_check 0 staleSession).1 = decide ((300 : Int) ≤ 360) ∧
    ((Sas.timed_out_check 0 staleSession).2.canceled ↔ (300 : Int) ≤ 360) :=
  session_times_out_at_five_minutes 0 360 staleSession (by decide)
    (by decide) (by decide) (by decide)

/-- Claim C9: the GC sweep removes a terminal session only after the 20-minute
grace period: a session canceled at its creation time is still in the table
at a sweep 10 minutes later and gone after a sweep 25 minutes later. -/
theorem gc_removes_terminal_sessions_after_grace (mu md mf txid : String)
    (s : Sas) (h : s.canceled) :
    ((Machine.mk mu md mf [] [(txid, s)] [] []).clear_verifications
        (s.creation_time + 600)).get_session txid = some s ∧
    ((Machine.mk mu md mf [] [(txid, s)] [] []).clear_verifications
        (s.creation_time + 1500)).get_session txid = none := by
  have hst : s.state = SasState.canceled := h
  unfold Machine.clear_verifications Machine.get_session Sas.timed_out_check
    Sas.terminal sessionGcAge Sas.verified Sas.canceled
  simp [hst, add_sub_cancel_left]
  omega

/-- A concrete canceled session used to instantiate the GC fact. -/
def canceledSession : Sas :=
  Sas.cancel { staleSession with creation_time := 0 }

/-- Witness for the GC statement at a concrete canceled session. -/
theorem gc_removes_terminal_sessions_after_grace_witness :
    ((Machine.mk "@a:e" "AD" "afp" [] [("t", canceledSession)] []
        []).clear_verifications (canceledSession.creation_time + 600)).get_session
        "t" = some canceledSession ∧
    ((Machine.mk "@a:e" "AD" "afp" [] [("t", canceledSession)] []
        []).clear_verifications (canceledSession.creation_time + 1500)).get_session
        "t" = none :=
  gc_removes_terminal_sessions_after_grace "@a:e" "AD" "afp" "t"
    canceledSession (by decide)

/-- Claim C7: a start event whose method is not m.sas.v1 yields a responder
session that from_start cancels immediately, and the manager installs no
session for the transaction id but enqueues a cancel envelope with code
m.unknown_method carrying that transaction id. -/
theorem unsupported_method_start_rejected (mu md mf sender : String)
    (priv : Nat) (dev : OlmDevice) (e : StartContent)
    (hm : e.method ≠ "m.sas.v1") (hs : sender = dev.user_id)
    (hd : e.from_device = dev.device_id) :
    (Sas.from_start mu md mf dev priv e 0).canceled ∧
    ((Machine.mk mu md mf [dev] [] [] []).handle_start sender e priv
        0).get_session e.transaction_id = none ∧
    ((Machine.mk mu md mf [dev] [] [] []).handle_start sender e priv
        0).outgoing_to_device_messages =
      [⟨sender, dev.device_id, "m.key.verification.cancel",
        ⟨e.transaction_id, "m.unknown_method", "Unknown method"⟩⟩] := by
  refine ⟨?_, ?_, ?_⟩ <;>
    simp [Machine.handle_start, Machine.lookup_device, Machine.get_session,
      Sas.get_cancelation, hs, hd, Sas.from_start, Sas.cancelWith,
      Sas.canceled, hm]

/-- A concrete peer device for witnesses. -/
def bobDeviceSample : OlmDevice :=
  ⟨"@bob:example.org", "JLAFKJWSRS", "bob_ed25519", "bob_curve25519"⟩

/-- A concrete start event advertising the unsupported method m.sas.v0. -/
def v0Start : StartContent :=
  { transaction_id := "tx2", from_device := "JLAFKJWSRS",
    method := "m.sas.v0",
    key_agreement_protocols := ["curve25519"], hashes := ["sha256"],
    message_authentication_codes := ["hkdf-hmac-sha256"],
    short_authentication_string := ["emoji", "decimal"] }

/-- Witness for the unsupported-method statement at a concrete m.sas.v0
start event. -/
theorem unsupported_method_start_rejected_witness :
    (Sas.from_start "@alice:example.org" "JLAFKJWSCS" "alice_ed25519"
        bobDeviceSample 3 v0Start 0).canceled ∧
    ((Machine.mk "@alice:example.org" "JLAFKJWSCS" "alice_ed25519"
        [bobDeviceSample] [] [] []).handle_start "@bob:example.org" v0Start 3
        0).get_session v0Start.transaction_id = none ∧
    ((Machine.mk "@alice:example.org" "JLAFKJWSCS" "alice_ed25519"
        [bobDeviceSample] [] [] []).handle_start "@bob:example.org" v0Start 3
        0).outgoing_to_device_messages =
      [⟨"@bob:example.org", bobDeviceSample.device_id,
        "m.key.verification.cancel",
        ⟨v0Start.transaction_id, "m.unknown_method", "Unknown method"⟩⟩] :=
  unsupported_method_start_rejected "@alice:example.org" "JLAFKJWSCS"
    "alice_ed25519" "@bob:example.org" 3 bobDeviceSample v0Start (by decide)
    (by decide) (by decide)

/-- Claim C8: delivering the same accept envelope to the initiator twice through
the manager leaves the session uncanceled after the first delivery and
canceled with code m.unexpected_message after the second. -/
theorem duplicate_accept_cancels (aU aD aF aCurve bU bD bF bCurve txid :
    String) (aPriv bPriv : Nat) :
    (duplicate_accept_run aU aD aF aCurve bU bD bF bCurve txid aPriv
        bPriv).isSome = true ∧
    (duplicate_accept_run aU aD aF aCurve bU bD bF bCurve txid aPriv
        bPriv).map
      (fun p => (decide p.1.canceled, decide p.2.canceled, p.2.cancel_code)) =
      some (false, true, some "m.unexpected_message") := by
  unfold duplicate_accept_run Machine.create_sas Machine.handle_accept
    Machine.get_session Machine.update_session Sas.create Sas.from_start
    Sas.start_content Sas.accept_verification Sas.receive_accept
    Sas.cancelWith Sas.canceled
  simp

/-- Claim C1: along the legal key-exchange run both sessions derive the same
short authentication string: the emoji rendering and the decimal triple
agree on the two sides. -/
theorem both_sides_derive_same_sas (aU aD aF aCurve bU bD bF bCurve txid :
    String) (aPriv bPriv : Nat) :
    (keys_run aU aD aF aCurve bU bD bF bCurve txid aPriv bPriv).isSome =
      true ∧
    (keys_run aU aD aF aCurve bU bD bF bCurve txid aPriv bPriv).map
      (fun p => (p.1.get_emoji, p.1.get_decimals)) =
    (keys_run aU aD aF aCurve bU bD bF bCurve txid aPriv bPriv).map
      (fun p => (p.2.get_emoji, p.2.get_decimals)) := by
  simp only [keys_run, Sas.create, Sas.start_verification, Sas.start_content,
    Sas.from_start, Sas.accept_verification, Sas.receive_accept,
    Sas.receive_key, Sas.share_key, Sas.cancelWith, Sas.canceled,
    Sas.get_emoji, Sas.get_decimals, Sas.sas_bytes, Sas.sas_info,
    Sas.shared_secret, Sas.pubkey]
  simp [dh_comm]

set_option maxHeartbeats 2000000 in
/-- Claim C4: a session is verified exactly when the local user confirmed the SAS
and the peer's mac validated: along the happy path, after receive_mac alone
the state is mac_received and verified is still false, the subsequent
accept_sas makes verified true, and the full exchange ends with both sides
verified in state mac_received. -/
theorem happy_path_verified_states (aU aD aF aCurve bU bD bF bCurve txid :
    String) (aPriv bPriv : Nat) :
    (full_run aU aD aF aCurve bU bD bF bCurve txid aPriv bPriv).isSome =
      true ∧
    (full_run aU aD aF aCurve bU bD bF bCurve txid aPriv bPriv).map
      (fun r =>
        (r.bob_after_mac.state, decide r.bob_after_mac.verified,
         r.bob_final.state, decide r.bob_final.verified,
         r.alice_final.state, decide r.alice_final.verified)) =
      some (SasState.mac_received, false, SasState.mac_received, true,
        SasState.mac_received, true) := by
  simp only [full_run, keys_run, Sas.create, Sas.start_verification,
    Sas.start_content, Sas.from_start, Sas.accept_verification,
    Sas.receive_accept, Sas.receive_key, Sas.share_key, Sas.cancelWith,
    Sas.canceled, Sas.accept_sas, Sas.get_mac, Sas.receive_mac,
    Sas.mac_info_out, Sas.mac_info_in, Sas.shared_secret, Sas.pubkey,
    Sas.verified, sortStrings, insertSorted, joinComma]
  simp [dh_comm, joinComma, insertSorted]

/-- Claim C2: on the initiator side, a key event whose key field is the
initiator's own ephemeral public key fails the commitment recorded at
accept time (the two ephemeral keys differ), and the session cancels with
m.key_mismatch. -/
theorem tampered_key_cancels_key_mismatch (aU aD aF aCurve bU bD bF bCurve
    txid : String) (aPriv bPriv : Nat)
    (h : dhGen ^ aPriv % dhPrime ≠ dhGen ^ bPriv % dhPrime) :
    (tampered_key_run aU aD aF aCurve bU bD bF bCurve txid aPriv bPriv).map
      (fun s => (s.state, s.cancel_code)) =
      some (SasState.canceled, some "m.key_mismatch") := by
  simp only [tampered_key_run, Sas.create, Sas.start_verification,
    Sas.start_content, Sas.from_start, Sas.accept_verification,
    Sas.receive_accept, Sas.receive_key, Sas.share_key, Sas.cancelWith,
    Sas.canceled, Sas.pubkey]
  simp [h, Ne.symm h]

/-- Witness for the tampered-key statement at concrete identities and
scalars. -/
theorem tampered_key_cancels_key_mismatch_witness :
    (tampered_key_run "@alice:example.org" "JLAFKJWSCS" "alice_ed25519"
        "alice_curve" "@bob:example.org" "JLAFKJWSRS" "bob_ed25519"
        "bob_curve" "tx3" 3 5).map
      (fun s => (s.state, s.cancel_code)) =
      some (SasState.canceled, some "m.key_mismatch") :=
  tampered_key_cancels_key_mismatch "@alice:example.org" "JLAFKJWSCS"
    "alice_ed25519" "alice_curve" "@bob:example.org" "JLAFKJWSRS"
    "bob_ed25519" "bob_curve" "tx3" 3 5 (by decide)

/-- Claim C3: a mac event whose keys field, or whose entry for the peer device,
does not verify under the derived MAC key cancels the receiving session and
leaves it unverified. -/
theorem tampered_mac_cancels (now : Int) (s : Sas) (e : MacContent)
    (sh : Nat) (hst : s.state = SasState.key_received)
    (hsh : s.shared_secret = some sh)
    (hbad : e.keys ≠ Mac.hmac sh (s.mac_info_in "KEY_IDS")
              (joinComma (sortStrings (e.mac.map Prod.fst))) ∨
            ∃ v, ("ed25519:" ++ s.other_olm_device.device_id, v) ∈ e.mac ∧
              v ≠ Mac.hmac sh
                    (s.mac_info_in
                      ("ed25519:" ++ s.other_olm_device.device_id))
                    s.other_olm_device.ed25519) :
    (s.receive_mac now e).canceled ∧ ¬ (s.receive_mac now e).verified := by
  have hc : ¬ s.canceled := by
    unfold Sas.canceled
    rw [hst]
    exact fun hx => SasState.noConfusion hx
  unfold Sas.receive_mac
  rw [if_neg hc, if_neg (fun hx => hx hst)]
  simp only [hsh]
  rcases hbad with hk | ⟨v, hmem, hv⟩
  · rw [if_neg hk]
    simp [Sas.cancelWith, Sas.canceled, Sas.verified]
  · by_cases hk : e.keys = Mac.hmac sh (s.mac_info_in "KEY_IDS")
        (joinComma (sortStrings (e.mac.map Prod.fst)))
    · rw [if_pos hk, if_neg (fun hall => hv (hall _ hmem rfl))]
      simp [Sas.cancelWith, Sas.canceled, Sas.verified]
    · rw [if_neg hk]
      simp [Sas.cancelWith, Sas.canceled, Sas.verified]

/-- A concrete session that has just exchanged keys, used to instantiate
the tampered-mac statement. -/
def keyReceivedSession : Sas :=
  { staleSession with
    state := SasState.key_received
    their_pubkey := some 9
    creation_time := 0
    last_event_time := 0 }

/-- Witness for the tampered-mac statement: a mac event whose keys field
was replaced by the raw string FAKEKEYS. -/
theorem tampered_mac_cancels_witness :
    (keyReceivedSession.receive_mac 0
        ⟨"tx1", [], Mac.raw "FAKEKEYS"⟩).canceled ∧
    ¬ (keyReceivedSession.receive_mac 0
        ⟨"tx1", [], Mac.raw "FAKEKEYS"⟩).verified :=
  tampered_mac_cancels 0 keyReceivedSession ⟨"tx1", [], Mac.raw "FAKEKEYS"⟩
    227 (by decide) (by decide) (Or.inl (by decide))
